import Mathlib

/-!
A shallow embedding of the FabAccess core (src/auth.rs, src/access.rs,
src/machine.rs) together with proofs about the claims of its specification.

Modelling conventions:
* Rust `HashMap<K, V>` stores are modelled as association lists with a
  first-match lookup; an update rewrites the first matching entry, which
  agrees with `HashMap` semantics on the duplicate-free lists a `HashMap`
  can produce.
* The casbin `Enforcer` is external to the core; it is modelled as an
  injected total function `String → String → String → Except Unit Bool`,
  matching the `enforce(subject, object, action) -> Result<bool>` contract
  (the concrete error payload is irrelevant to the core, hence `Unit`).
* `capnp::Error::failed(msg)` is modelled as `Except.error msg`.
* Log statements carry no semantics and are dropped.
-/

namespace FabAccess

/-! ## Machine registry data model (src/machine.rs) -/

/-- Status of a Machine (machine.rs, `enum Status`). -/
inductive Status where
  | Free
  | Occupied
  | Blocked
deriving DecidableEq, Repr

/-- A machine record (machine.rs, `struct Machine`). -/
structure Machine where
  name : String
  location : String
  status : Status
  perm : String
deriving DecidableEq, Repr

/-- machine.rs `Machine::set_blocked`. -/
def Machine.set_blocked (m : Machine) (blocked : Bool) : Machine :=
  if blocked then { m with status := Status.Blocked }
  else { m with status := Status.Free }

/-- machine.rs `type MachineDB = HashMap<Uuid, Machine>`; the 128-bit key is
modelled by its numeric value. -/
abbrev MachineDB := List (Nat × Machine)

/-- `HashMap::get`: first entry with the given key. -/
def dbGet (mdb : MachineDB) (uuid : Nat) : Option Machine :=
  match mdb with
  | [] => none
  | (k, m) :: rest => if k = uuid then some m else dbGet rest uuid

/-- `HashMap::get_mut` followed by a mutation: rewrite the first entry with
the given key. -/
def dbUpdate (mdb : MachineDB) (uuid : Nat) (f : Machine → Machine) : MachineDB :=
  match mdb with
  | [] => []
  | (k, m) :: rest =>
    if k = uuid then (k, f m) :: rest else (k, m) :: dbUpdate rest uuid f

/-! ## MachinesProvider operations (src/machine.rs)

Each Rust method mutates `self.mdb` and returns a
`Result<(), capnp::Error>`; here it returns the result together with the
new database. -/

/-- machine.rs `MachinesProvider::use_`. -/
def MachinesProvider.use_ (mdb : MachineDB) (uuid : Nat) :
    Except String Unit × MachineDB :=
  match dbGet mdb uuid with
  | some m =>
    match m.status with
    | Status.Free =>
      (Except.ok (), dbUpdate mdb uuid fun x => { x with status := Status.Occupied })
    | Status.Occupied => (Except.error "Machine is occupied", mdb)
    | Status.Blocked => (Except.error "Machine is blocked", mdb)
  | none => (Except.error "No such machine", mdb)

/-- machine.rs `MachinesProvider::give_back`; an unknown uuid is only
logged (`warn!`) and the call still returns `Ok(())`. -/
def MachinesProvider.give_back (mdb : MachineDB) (uuid : Nat) :
    Except String Unit × MachineDB :=
  match dbGet mdb uuid with
  | some _ =>
    (Except.ok (), dbUpdate mdb uuid fun x => { x with status := Status.Free })
  | none => (Except.ok (), mdb)

/-- machine.rs `MachinesProvider::set_blocked`. -/
def MachinesProvider.set_blocked (mdb : MachineDB) (uuid : Nat) (blocked : Bool) :
    Except String Unit × MachineDB :=
  match dbGet mdb uuid with
  | some _ => (Except.ok (), dbUpdate mdb uuid fun x => x.set_blocked blocked)
  | none => (Except.error "No such machine", mdb)

/-- machine.rs `MachinesProvider::get_perm_req`. -/
def MachinesProvider.get_perm_req (mdb : MachineDB) (uuid : Nat) : Option String :=
  (dbGet mdb uuid).map Machine.perm

/-! ## Policy engine and permission enforcement (src/access.rs) -/

/-- The external casbin enforcer: `enforce(subject, object, action)` returning
`Result<bool>`. -/
abbrev Engine := String → String → String → Except Unit Bool

/-- access.rs `PermissionsProvider::enforce` (the `trace!` logging carries no
semantics). -/
def PermissionsProvider.enforce (pdb : Engine) (actor object action : String) :
    Except Unit Bool :=
  pdb actor object action

/-- access.rs `Permissions::enforce`: the per-connection wrapper reading the
session identity slot; an unset identity short-circuits to `Ok(false)`. -/
def Permissions.enforce (state : Option String) (pdb : Engine)
    (object action : String) : Except Unit Bool :=
  match state with
  | some actor => PermissionsProvider.enforce pdb actor object action
  | none => Except.ok false

/-! ## SASL PLAIN authentication (src/auth.rs) -/

/-- auth.rs `enum SASLError`. -/
inductive SASLError where
  | UTF8
  | BadChallenge
  | Enforcer
deriving DecidableEq, Repr

/-- The NUL character the PLAIN payload is split on. -/
def nulChar : Char := Char.ofNat 0

/-- Rust `str::split('\0')` on the character list of a string: splits at every
NUL, keeping empty pieces, and yields at least one piece. -/
def split_on_nul : List Char → List (List Char)
  | [] => [[]]
  | c :: rest =>
    if c = nulChar then [] :: split_on_nul rest
    else
      match split_on_nul rest with
      | [] => [[c]]
      | f :: fs => (c :: f) :: fs

/-- auth.rs `split_nul`: take the first three NUL-separated fields of the
string, if present (any remaining fields are dropped by the iterator). -/
def split_nul (s : String) : Option (String × String × String) :=
  match split_on_nul s.data with
  | a :: b :: c :: _ => some (⟨a⟩, ⟨b⟩, ⟨c⟩)
  | _ => none

/-- auth.rs `struct Plain`: the credential store (login name → secret) plus
the injected policy engine. -/
structure Plain where
  passdb : List (String × String)
  enforcer : Engine

/-- The credential-lookup phase of auth.rs `Plain::step`: the body that runs
once the payload has been split into `(authzid, authcid, passwd)`. -/
def plainCheck (passdb : List (String × String)) (enforcer : Engine)
    (authzid authcid passwd : String) : Except SASLError (Bool × String) :=
  match List.lookup authcid passdb with
  | some pwd =>
    if pwd = passwd then
      if authzid = "" ∨ authzid = authcid then
        Except.ok (true, authcid)
      else
        match enforcer authcid authzid "su" with
        | Except.ok b =>
          if b then Except.ok (true, authzid) else Except.ok (false, authzid)
        | Except.error _ => Except.error SASLError.Enforcer
    else Except.ok (false, authzid)
  | none => Except.ok (false, authzid)

/-- auth.rs `Plain::step`. The wire payload is a byte string already checked
to be valid UTF-8 (the `from_utf8` failure exit is the `UTF8` error); a valid
UTF-8 payload corresponds one-to-one to the decoded string, and NUL bytes of
the payload are exactly the NUL characters of the string, so the step is
modelled on the decoded string. -/
def Plain.step (p : Plain) (data : String) : Except SASLError (Bool × String) :=
  match split_nul data with
  | some (authzid, authcid, passwd) =>
    plainCheck p.passdb p.enforcer authzid authcid passwd
  | none => Except.error SASLError.BadChallenge

/-- auth.rs `Authentication::initialize_authentication`, restricted to its
effect on the per-connection identity slot for the `"PLAIN"` mechanism: on
`Ok((true, name))` the slot is overwritten via `Option::replace`; on
`Ok((false, _))` and on `Err(_)` the slot is untouched. -/
def initialize_authentication (p : Plain) (state : Option String)
    (data : String) : Option String :=
  match p.step data with
  | Except.ok (b, name) => if b then some name else state
  | Except.error _ => state

/-! ## Machines RPC layer (src/machine.rs, `impl api::machines::Server`) -/

/-- The observable response of a `Machines::use_` / `Machines::manage` RPC
call: a capability, an empty success (no capability set), or a failed call. -/
inductive Response where
  | giveback (uuid : Nat)
  | manager (uuid : Nat)
  | empty
  | failed (msg : String)
deriving DecidableEq, Repr

/-- machine.rs `Machines::use_` (the RPC handler): read the permission
string, ask the per-connection enforcer for `"write"`, and only on
`Ok(true)` perform the mutation and issue a give-back capability. Both
`Ok(false)` and `Err(_)` fall out of the `if let Ok(true)` and return an
empty success; an unknown uuid also returns an empty success. -/
def Machines.use_ (mdb : MachineDB) (state : Option String) (pdb : Engine)
    (uuid : Nat) : Response × MachineDB :=
  match MachinesProvider.get_perm_req mdb uuid with
  | some ps =>
    match Permissions.enforce state pdb ps "write" with
    | Except.ok true =>
      match MachinesProvider.use_ mdb uuid with
      | (Except.ok _, mdb1) => (Response.giveback uuid, mdb1)
      | (Except.error e, mdb1) => (Response.failed e, mdb1)
    | Except.ok false => (Response.empty, mdb)
    | Except.error _ => (Response.empty, mdb)
  | none => (Response.empty, mdb)

/-- machine.rs `Machines::manage` (the RPC handler): like `use_` but for the
`"manage"` action; it mutates nothing and issues a manager capability only
on `Ok(true)`. -/
def Machines.manage (mdb : MachineDB) (state : Option String) (pdb : Engine)
    (uuid : Nat) : Response × MachineDB :=
  match MachinesProvider.get_perm_req mdb uuid with
  | some ps =>
    match Permissions.enforce state pdb ps "manage" with
    | Except.ok true => (Response.manager uuid, mdb)
    | Except.ok false => (Response.empty, mdb)
    | Except.error _ => (Response.empty, mdb)
  | none => (Response.empty, mdb)

/-! ## Wire encoding of machine identifiers (src/machine.rs) -/

/-- A 128-bit uuid, identified with the numeric value of its sixteen bytes
read big-endian — exactly the value `uuid::Uuid::from_u128` consumes and
`as_u128` returns. -/
structure Uuid where
  val : Nat
deriving DecidableEq, Repr

/-- `uuid::Uuid::from_u128`: build the uuid whose big-endian byte value is
the given 128-bit number. -/
def Uuid.from_u128 (n : Nat) : Uuid := ⟨n % 2 ^ 128⟩

/-- Reverse the sixteen bytes of a 128-bit value. -/
def byteswap128 (n : Nat) : Nat :=
  (List.range 16).foldl (fun acc i => acc + n / 256 ^ i % 256 * 256 ^ (15 - i)) 0

/-- `uuid::Uuid::to_u128_le`: the sixteen bytes of the uuid read
little-endian, i.e. the byte reversal of the big-endian value. -/
def Uuid.to_u128_le (u : Uuid) : Nat := byteswap128 u.val

/-- machine.rs `api_from_uuid`: encode as two u64 wire halves
`(uuid0, uuid1)` taken from `to_u128_le`. -/
def api_from_uuid (u : Uuid) : Nat × Nat :=
  (u.to_u128_le % 2 ^ 64, u.to_u128_le / 2 ^ 64 % 2 ^ 64)

/-- machine.rs `uuid_from_api`: decode the two u64 wire halves by
`(uuid1 << 64) + uuid0` and `Uuid::from_u128`. -/
def uuid_from_api (uuid0 uuid1 : Nat) : Uuid :=
  Uuid.from_u128 ((uuid1 % 2 ^ 64) <<< 64 + uuid0 % 2 ^ 64)

/-- Whether a `Result<(), _>` is `Ok`. -/
def isOk : Except String Unit → Bool
  | Except.ok _ => true
  | Except.error _ => false

/-! ## Helper lemmas -/

/-- Looking up the updated key returns the updated record. -/
theorem dbGet_dbUpdate (mdb : MachineDB) (uuid : Nat) (f : Machine → Machine) :
    dbGet (dbUpdate mdb uuid f) uuid = (dbGet mdb uuid).map f := by
  induction mdb with
  | nil => rfl
  | cons hd tl ih =>
    obtain ⟨k, m⟩ := hd
    by_cases hk : k = uuid
    · simp [dbGet, dbUpdate, hk]
    · simp [dbGet, dbUpdate, hk, ih]

/-! ## Claims -/

/-- Claim C1, counterexample: the payload `"\x00b\x00c\x00d"` is valid UTF-8
and splits on NUL into four fields, yet the step does not fail with
`BadChallenge`: it proceeds to credential lookup on the first three fields —
with the credential `b ↦ c` stored the login is granted, while with an empty
store it is denied, so the Credential Store is consulted. -/
theorem C1_counterexample :
    Plain.step ⟨[("b", "c")], fun _ _ _ => Except.ok false⟩ "\x00b\x00c\x00d"
      = Except.ok (true, "b") ∧
    Plain.step ⟨[], fun _ _ _ => Except.ok false⟩ "\x00b\x00c\x00d"
      = Except.ok (false, "") ∧
    (split_on_nul ("\x00b\x00c\x00d").data).length = 4 := by
  refine ⟨by rfl, by rfl, by decide⟩

/-- Claim C1, amended: for every valid-UTF-8 payload, if splitting it on NUL
bytes yields fewer than three fields the PLAIN step fails with `BadChallenge`
(for every store and engine, so the Credential Store is never consulted);
a payload with three or more fields proceeds to credential lookup on the
first three fields, any further fields being ignored. -/
theorem C1_field_count (data : String) (db : List (String × String)) (enf : Engine) :
    ((split_on_nul data.data).length < 3 →
      Plain.step ⟨db, enf⟩ data = Except.error SASLError.BadChallenge) ∧
    (3 ≤ (split_on_nul data.data).length →
      ∃ a b c rest, split_on_nul data.data = a :: b :: c :: rest ∧
        Plain.step ⟨db, enf⟩ data = plainCheck db enf ⟨a⟩ ⟨b⟩ ⟨c⟩) := by
  rcases hs : split_on_nul data.data with _ | ⟨a, _ | ⟨b, _ | ⟨c, rest⟩⟩⟩
  · exact ⟨fun _ => by simp [Plain.step, split_nul, hs], fun h => by simp [hs] at h⟩
  · exact ⟨fun _ => by simp [Plain.step, split_nul, hs], fun h => by simp [hs] at h⟩
  · exact ⟨fun _ => by simp [Plain.step, split_nul, hs], fun h => by simp [hs] at h⟩
  · refine ⟨fun h => by simp [hs] at h; omega, fun _ => ?_⟩
    exact ⟨a, b, c, rest, rfl, by simp [Plain.step, split_nul, hs]⟩

/-- Claim C1, witness: a two-field payload is rejected with `BadChallenge`. -/
theorem C1_witness :
    Plain.step ⟨[("user", "pw")], fun _ _ _ => Except.ok false⟩ "a\x00b"
      = Except.error SASLError.BadChallenge :=
  (C1_field_count "a\x00b" [("user", "pw")] (fun _ _ _ => Except.ok false)).1 (by decide)

/-- Claim C2: with a stored credential for `authcid` matching the supplied
password, an empty or self `authzid` is granted as `authcid` without
consulting the policy engine (the outcome is engine-independent); a distinct
non-empty `authzid` is decided by `enforce(authcid, authzid, "su")`: granted
as `authzid` on `Ok(true)`, denied as `authzid` on `Ok(false)`, and the whole
step fails with the `Enforcer` error on engine failure. -/
theorem C2_impersonation (db : List (String × String)) (enf : Engine) (data : String)
    (authzid authcid passwd : String)
    (hsplit : split_nul data = some (authzid, authcid, passwd))
    (hcred : List.lookup authcid db = some passwd) :
    ((authzid = "" ∨ authzid = authcid) →
      ∀ enf2 : Engine, Plain.step ⟨db, enf2⟩ data = Except.ok (true, authcid)) ∧
    (authzid ≠ "" → authzid ≠ authcid →
      (enf authcid authzid "su" = Except.ok true →
        Plain.step ⟨db, enf⟩ data = Except.ok (true, authzid)) ∧
      (enf authcid authzid "su" = Except.ok false →
        Plain.step ⟨db, enf⟩ data = Except.ok (false, authzid)) ∧
      (∀ e : Unit, enf authcid authzid "su" = Except.error e →
        Plain.step ⟨db, enf⟩ data = Except.error SASLError.Enforcer)) := by
  constructor
  · intro hz enf2
    simp [Plain.step, hsplit, plainCheck, hcred, hz]
  · intro hne hneq
    have hnor : ¬(authzid = "" ∨ authzid = authcid) := by
      rintro (h | h)
      · exact hne h
      · exact hneq h
    refine ⟨fun henf => ?_, fun henf => ?_, fun e henf => ?_⟩ <;>
      simp [Plain.step, hsplit, plainCheck, hcred, hnor, henf]

/-- Claim C2, witness: `bob` impersonated via a granting engine. -/
theorem C2_witness :
    Plain.step ⟨[("alice", "pw")], fun _ _ _ => Except.ok true⟩ "bob\x00alice\x00pw"
      = Except.ok (true, "bob") :=
  (((C2_impersonation [("alice", "pw")] (fun _ _ _ => Except.ok true)
      "bob\x00alice\x00pw" "bob" "alice" "pw" (by rfl) (by rfl)).2
    (by decide) (by decide)).1) (by rfl)

/-- Claim C3: a well-formed PLAIN step whose `authcid` is absent from the
Credential Store, or present with a secret different from the supplied
password, is denied with the requested `authzid` field echoed as the outcome
identity — the same outcome in both cases, so an unknown username is
indistinguishable from a wrong password. -/
theorem C3_denied_echoes_authzid (db : List (String × String)) (enf : Engine)
    (data : String) (authzid authcid passwd : String)
    (hsplit : split_nul data = some (authzid, authcid, passwd))
    (hbad : ∀ pwd, List.lookup authcid db = some pwd → pwd ≠ passwd) :
    Plain.step ⟨db, enf⟩ data = Except.ok (false, authzid) := by
  simp only [Plain.step, hsplit, plainCheck]
  cases hl : List.lookup authcid db with
  | none => rfl
  | some pwd => simp [hbad pwd hl]

/-- Claim C3, witness: a wrong password for a stored user is denied with the
requested `authzid` echoed back. -/
theorem C3_witness :
    Plain.step ⟨[("alice", "pw")], fun _ _ _ => Except.ok true⟩ "x\x00alice\x00guess"
      = Except.ok (false, "x") :=
  C3_denied_echoes_authzid [("alice", "pw")] (fun _ _ _ => Except.ok true)
    "x\x00alice\x00guess" "x" "alice" "guess" (by rfl)
    (fun pwd h => by
      rw [show List.lookup "alice" [("alice", "pw")] = some "pw" from rfl] at h
      injection h with h2
      rw [← h2]
      decide)

/-- Claim C4: with the identity slot unset, the per-connection
`Permissions::enforce` returns `Ok(false)` and the result is independent of
the policy engine (the engine is never invoked); with an identity set, the
call is exactly the engine applied to `(identity, object, action)`. -/
theorem C4_unauthenticated_enforce (pdb pdb2 : Engine) (object action : String) :
    Permissions.enforce none pdb object action = Except.ok false ∧
    Permissions.enforce none pdb object action
      = Permissions.enforce none pdb2 object action ∧
    ∀ idt : String, Permissions.enforce (some idt) pdb object action
      = pdb idt object action :=
  ⟨rfl, rfl, fun _ => rfl⟩

/-- A registry with one free machine, permission object `"lab"`. -/
def c5db : MachineDB := [(7, ⟨"m1", "hall", Status.Free, "lab"⟩)]

/-- Claim C5 concerns a code bug: in the registry RPC handlers, a failure of
the policy engine itself is NOT surfaced as an error distinct from a `false`
decision. With an authenticated identity and a failing engine, `use` and
`manage` on a free machine return an empty success, byte-for-byte the same
observable outcome as with an engine that returns `Ok(false)` — the
`if let Ok(true)` in machine.rs silently swallows the engine error, whereas
auth.rs maps the same failure to a distinct `Enforcer` error. -/
theorem C5_engine_failure_not_distinct :
    Machines.use_ c5db (some "alice") (fun _ _ _ => Except.error ()) 7
      = (Response.empty, c5db) ∧
    Machines.use_ c5db (some "alice") (fun _ _ _ => Except.error ()) 7
      = Machines.use_ c5db (some "alice") (fun _ _ _ => Except.ok false) 7 ∧
    Machines.manage c5db (some "alice") (fun _ _ _ => Except.error ()) 7
      = (Response.empty, c5db) ∧
    Machines.manage c5db (some "alice") (fun _ _ _ => Except.error ()) 7
      = Machines.manage c5db (some "alice") (fun _ _ _ => Except.ok false) 7 := by
  refine ⟨by decide, by decide, by decide, by decide⟩

/-- Claim C6, counterexample: `give_back` is an operation on a uuid, and on a
uuid not in the registry it returns `Ok(())` — it does not fail with a
"no such machine" error, refuting "any operation on an unknown uuid fails". -/
theorem C6_counterexample :
    MachinesProvider.give_back ([] : MachineDB) 0 = (Except.ok (), ([] : MachineDB)) ∧
    (MachinesProvider.give_back ([] : MachineDB) 0).1 ≠ Except.error "No such machine" :=
  ⟨rfl, fun h => Except.noConfusion h⟩

/-- Claim C6, amended: `use` moves a Free machine to Occupied and succeeds;
on an Occupied machine it fails with "Machine is occupied" leaving the
registry unchanged; on a Blocked machine it fails with "Machine is blocked"
leaving the registry unchanged; for a uuid not in the registry, `use` and
`set_blocked` fail with "No such machine" leaving the registry unchanged,
while `give_back` returns success leaving the registry unchanged (a logged
anomaly, not a hard error). -/
theorem C6_state_machine (mdb : MachineDB) (uuid : Nat) :
    (∀ m, dbGet mdb uuid = some m →
      (m.status = Status.Free →
        (MachinesProvider.use_ mdb uuid).1 = Except.ok () ∧
        dbGet (MachinesProvider.use_ mdb uuid).2 uuid
          = some { m with status := Status.Occupied }) ∧
      (m.status = Status.Occupied →
        MachinesProvider.use_ mdb uuid = (Except.error "Machine is occupied", mdb)) ∧
      (m.status = Status.Blocked →
        MachinesProvider.use_ mdb uuid = (Except.error "Machine is blocked", mdb))) ∧
    (dbGet mdb uuid = none →
      MachinesProvider.use_ mdb uuid = (Except.error "No such machine", mdb) ∧
      MachinesProvider.set_blocked mdb uuid true = (Except.error "No such machine", mdb) ∧
      MachinesProvider.give_back mdb uuid = (Except.ok (), mdb)) := by
  constructor
  · intro m hm
    refine ⟨fun hf => ?_, fun ho => ?_, fun hb => ?_⟩
    · constructor
      · simp [MachinesProvider.use_, hm, hf]
      · simp [MachinesProvider.use_, hm, hf, dbGet_dbUpdate]
    · simp [MachinesProvider.use_, hm, ho]
    · simp [MachinesProvider.use_, hm, hb]
  · intro hn
    refine ⟨?_, ?_, ?_⟩ <;>
      simp [MachinesProvider.use_, MachinesProvider.set_blocked,
        MachinesProvider.give_back, hn]

/-- Claim C6, witness: using the one free machine occupies it, and `use` on
an unknown uuid fails with "No such machine". -/
theorem C6_witness :
    dbGet (MachinesProvider.use_ [(1, ⟨"m", "loc", Status.Free, "p"⟩)] 1).2 1
      = some ⟨"m", "loc", Status.Occupied, "p"⟩ ∧
    MachinesProvider.use_ ([] : MachineDB) 5
      = (Except.error "No such machine", ([] : MachineDB)) :=
  ⟨(((C6_state_machine [(1, ⟨"m", "loc", Status.Free, "p"⟩)] 1).1
      ⟨"m", "loc", Status.Free, "p"⟩ (by rfl)).1 (by rfl)).2,
   ((C6_state_machine ([] : MachineDB) 5).2 (by rfl)).1⟩

/-- A provider with two credentials, used by the C7 counterexample. -/
def p7 : Plain := ⟨[("alice", "s"), ("bob", "t")], fun _ _ _ => Except.ok false⟩

/-- Claim C7, counterexample: the identity slot is not write-once. A first
granted login sets it to `alice`, and a second granted login step on the
same connection overwrites it to `bob` (`Option::replace` has no
already-set guard). -/
theorem C7_counterexample :
    initialize_authentication p7 none "\x00alice\x00s" = some "alice" ∧
    initialize_authentication p7
      (initialize_authentication p7 none "\x00alice\x00s") "\x00bob\x00t"
      = some "bob" ∧
    (some "bob" : Option String) ≠ some "alice" := by
  refine ⟨by rfl, by rfl, by decide⟩

/-- Claim C7, amended: the identity slot is written only by a granted login
outcome — a denied outcome or a failed step leaves it unchanged (in
particular, from the initial state it remains unset) — and each granted
outcome sets it to the resulting name, overwriting any previously set
identity (last granted login wins, not write-once). -/
theorem C7_identity_updates (p : Plain) (st : Option String) (data : String) :
    (∀ name, p.step data = Except.ok (false, name) →
      initialize_authentication p st data = st) ∧
    (∀ e, p.step data = Except.error e →
      initialize_authentication p st data = st) ∧
    (∀ name, p.step data = Except.ok (true, name) →
      initialize_authentication p st data = some name) := by
  refine ⟨fun name h => ?_, fun e h => ?_, fun name h => ?_⟩ <;>
    simp [initialize_authentication, h]

/-- Claim C7, witness: a denied step (wrong password) leaves a previously
set identity unchanged. -/
theorem C7_witness :
    initialize_authentication ⟨[("alice", "s")], fun _ _ _ => Except.ok false⟩
      (some "prev") "\x00alice\x00wrong" = some "prev" :=
  (C7_identity_updates ⟨[("alice", "s")], fun _ _ _ => Except.ok false⟩
    (some "prev") "\x00alice\x00wrong").1 "" (by rfl)

/-- Claim C8 concerns a code bug: `uuid_from_api` is not a left inverse of
`api_from_uuid`. The encoder reads the bytes little-endian (`to_u128_le`)
while the decoder rebuilds them big-endian (`from_u128`), so the round trip
reverses the sixteen bytes: the identifier with value 1 comes back as the
identifier with value `2 ^ 120`. -/
theorem C8_roundtrip_is_byteswap :
    uuid_from_api (api_from_uuid (Uuid.from_u128 1)).1
      (api_from_uuid (Uuid.from_u128 1)).2 = Uuid.from_u128 (2 ^ 120) ∧
    Uuid.from_u128 (2 ^ 120) ≠ Uuid.from_u128 1 := by
  refine ⟨by decide, by decide⟩

/-- Claim C9: the status check and the transition of `use` happen together in
`MachinesProvider::use_`, which runs under the registry's exclusive write
lock; two concurrent `use` calls therefore linearize to two sequential
`use_` mutations (the earlier permission phase reads only the `perm` field,
which no `use_` mutation changes). Of the two linearized mutations, at most
one succeeds — in particular, from any registry state, if the first one
succeeds the second fails with "Machine is occupied". -/
theorem C9_concurrent_use_exclusion (mdb : MachineDB) (uuid : Nat) :
    (isOk (MachinesProvider.use_ mdb uuid).1 &&
      isOk (MachinesProvider.use_ (MachinesProvider.use_ mdb uuid).2 uuid).1) = false ∧
    ((MachinesProvider.use_ mdb uuid).1 = Except.ok () →
      (MachinesProvider.use_ (MachinesProvider.use_ mdb uuid).2 uuid).1
        = Except.error "Machine is occupied") := by
  cases hm : dbGet mdb uuid with
  | none =>
    constructor
    · simp [MachinesProvider.use_, hm, isOk]
    · intro h
      simp [MachinesProvider.use_, hm] at h
  | some m =>
    cases hs : m.status with
    | Free =>
      have h2 : dbGet (dbUpdate mdb uuid fun x => { x with status := Status.Occupied }) uuid
          = some { m with status := Status.Occupied } := by
        rw [dbGet_dbUpdate, hm]
        rfl
      constructor
      · simp [MachinesProvider.use_, hm, hs, h2, isOk]
      · intro _
        simp [MachinesProvider.use_, hm, hs, h2]
    | Occupied =>
      constructor
      · simp [MachinesProvider.use_, hm, hs, isOk]
      · intro h
        simp [MachinesProvider.use_, hm, hs] at h
    | Blocked =>
      constructor
      · simp [MachinesProvider.use_, hm, hs, isOk]
      · intro h
        simp [MachinesProvider.use_, hm, hs] at h

/-- Claim C9, witness: on a registry with one free machine, the second of two
linearized `use` mutations fails with "Machine is occupied". -/
theorem C9_witness :
    (MachinesProvider.use_
        (MachinesProvider.use_ [(2, ⟨"m", "loc", Status.Free, "p"⟩)] 2).2 2).1
      = Except.error "Machine is occupied" :=
  (C9_concurrent_use_exclusion [(2, ⟨"m", "loc", Status.Free, "p"⟩)] 2).2 (by rfl)

/-- Claim C10: `give_back` always returns success, for known and unknown
identifiers alike; on a known identifier it sets the status to `Free`
unconditionally, whatever the previous status (in particular it un-blocks a
machine that was set to Blocked); on an unknown identifier it leaves the
registry unchanged. -/
theorem C10_give_back_unconditional (mdb : MachineDB) (uuid : Nat) :
    (MachinesProvider.give_back mdb uuid).1 = Except.ok () ∧
    (∀ m, dbGet mdb uuid = some m →
      dbGet (MachinesProvider.give_back mdb uuid).2 uuid
        = some { m with status := Status.Free }) ∧
    (dbGet mdb uuid = none → (MachinesProvider.give_back mdb uuid).2 = mdb) := by
  refine ⟨?_, fun m hm => ?_, fun hn => ?_⟩
  · cases hm : dbGet mdb uuid <;> simp [MachinesProvider.give_back, hm]
  · simp [MachinesProvider.give_back, hm, dbGet_dbUpdate]
  · simp [MachinesProvider.give_back, hn]

/-- Claim C10, witness: a give-back on a Blocked machine moves it to Free. -/
theorem C10_witness :
    dbGet (MachinesProvider.give_back [(4, ⟨"m", "loc", Status.Blocked, "p"⟩)] 4).2 4
      = some ⟨"m", "loc", Status.Free, "p"⟩ :=
  (C10_give_back_unconditional [(4, ⟨"m", "loc", Status.Blocked, "p"⟩)] 4).2.1
    ⟨"m", "loc", Status.Blocked, "p"⟩ (by rfl)

end FabAccess
